import Mathlib

/-!
Verification model of `aster_processing.ipynb`: radiometric conversion of
ASTER TIR digital numbers (DN) to brightness temperature and zonal
statistics over a masked raster grid.

Modelling conventions:
* Python floats are modelled by real numbers; the exceptional IEEE-754
  values that the numpy pipeline can produce (NaN, +inf, -inf) are modelled
  explicitly by the `NpVal` type.  Rounding is not modelled (no claim here
  depends on it); the sign of zero is not tracked (the pipeline only ever
  divides positive constants by zeros arising from `(1.0 - 1.0) * ucc`,
  which are IEEE +0.0).
* Python list indexing `l[i]` is modelled by `pyGet`: a negative index
  wraps once by the list length, and an out-of-range index is an
  `IndexError`, modelled as `none`.
* Raster DN samples are integers (the raster's unsigned-integer pixels are
  exactly representable after `astype('float64')`), so masked grids are
  grids of `ℤ`.
* File and geometry I/O (rasterio `open`/`mask`, geopandas read/reproject)
  is third-party code outside this repository; `zonal_stats` therefore
  takes the result of the masking step as its input: `some grid` for a
  successful mask (a bands × rows × cols array, excluded pixels filled
  with the sentinel 0), or `none` when `rasterio.mask.mask` raises
  `ValueError` because the shapes do not overlap the raster (as the
  source's own comment documents).
-/

namespace Aster

/-- Python list indexing `l[i]`: a negative `i` counts from the end
(`l[i] = l[i + len(l)]`); an index out of range is an `IndexError`,
modelled as `none`. -/
def pyGet {α : Type} (l : List α) (i : ℤ) : Option α :=
  if 0 ≤ i then l[i.toNat]?
  else if 0 ≤ i + l.length then l[(i + l.length).toNat]?
  else none

/-- `ucc = [6.822e-3, 6.780e-3, 6.590e-3, 5.693e-3, 5.225e-3]` — the
per-band unit conversion coefficients from `tir_dn2rad`. -/
def ucc : List ℝ := [6.822e-3, 6.780e-3, 6.590e-3, 5.693e-3, 5.225e-3]

/-- `k1 = [3047.47, 2480.93, 1930.80, 865.65, 649.60]` from `tir_rad2tb`. -/
def k1 : List ℝ := [3047.47, 2480.93, 1930.80, 865.65, 649.60]

/-- `k2 = [1736.18, 1666.21, 1584.72, 1349.82, 1274.49]` from `tir_rad2tb`. -/
def k2 : List ℝ := [1736.18, 1666.21, 1584.72, 1349.82, 1274.49]

/-- `tir_dn2rad(DN, band)` applied to a Python float scalar:
`rad = (DN - 1.) * ucc[band - 10]`.  `none` models the `IndexError`
raised when `band - 10` is out of range for the 5-element list. -/
noncomputable def tir_dn2rad (DN : ℝ) (band : ℤ) : Option ℝ :=
  (pyGet ucc (band - 10)).map (fun c => (DN - 1) * c)

/-- `tir_rad2tb(rad, band)` applied to a scalar:
`tb = k2[band - 10] / np.log((k1[band - 10] / rad) + 1)`.  `none` models
the `IndexError` on a bad band index (the two indexings use the same
index, so they fail together). -/
noncomputable def tir_rad2tb (rad : ℝ) (band : ℤ) : Option ℝ :=
  match pyGet k1 (band - 10), pyGet k2 (band - 10) with
  | some a, some b => some (b / Real.log (a / rad + 1))
  | _, _ => none

/-! ## numpy float values

`NpVal` is a float64 sample as the zonal pipeline sees it: NaN, +inf,
-inf, or an (unrounded) finite value. -/

inductive NpVal : Type where
  | nan : NpVal
  | pinf : NpVal
  | ninf : NpVal
  | fin (x : ℝ) : NpVal

/-- `np.isnan` on one sample. -/
def NpVal.isNan : NpVal → Bool
  | .nan => true
  | _ => false

/-- IEEE negation. -/
noncomputable def npNeg : NpVal → NpVal
  | .nan => .nan
  | .pinf => .ninf
  | .ninf => .pinf
  | .fin x => .fin (-x)

/-- IEEE addition: NaN absorbs, opposite infinities give NaN. -/
noncomputable def npAdd : NpVal → NpVal → NpVal
  | .nan, _ => .nan
  | _, .nan => .nan
  | .pinf, .ninf => .nan
  | .ninf, .pinf => .nan
  | .pinf, _ => .pinf
  | _, .pinf => .pinf
  | .ninf, _ => .ninf
  | _, .ninf => .ninf
  | .fin a, .fin b => .fin (a + b)

/-- IEEE subtraction. -/
noncomputable def npSub (x y : NpVal) : NpVal := npAdd x (npNeg y)

/-- IEEE multiplication: NaN absorbs, `inf * 0` is NaN. -/
noncomputable def npMul : NpVal → NpVal → NpVal
  | .nan, _ => .nan
  | _, .nan => .nan
  | .pinf, .pinf => .pinf
  | .pinf, .ninf => .ninf
  | .ninf, .pinf => .ninf
  | .ninf, .ninf => .pinf
  | .pinf, .fin b => if 0 < b then .pinf else if b < 0 then .ninf else .nan
  | .ninf, .fin b => if 0 < b then .ninf else if b < 0 then .pinf else .nan
  | .fin a, .pinf => if 0 < a then .pinf else if a < 0 then .ninf else .nan
  | .fin a, .ninf => if 0 < a then .ninf else if a < 0 then .pinf else .nan
  | .fin a, .fin b => .fin (a * b)

/-- IEEE division (zeros treated as +0, see the header note):
`c / 0` is a signed infinity, `0 / 0` and `inf / inf` are NaN,
`c / inf` is 0. -/
noncomputable def npDiv : NpVal → NpVal → NpVal
  | .nan, _ => .nan
  | _, .nan => .nan
  | .pinf, .pinf => .nan
  | .pinf, .ninf => .nan
  | .ninf, .pinf => .nan
  | .ninf, .ninf => .nan
  | .pinf, .fin b => if b < 0 then .ninf else .pinf
  | .ninf, .fin b => if b < 0 then .pinf else .ninf
  | .fin _, .pinf => .fin 0
  | .fin _, .ninf => .fin 0
  | .fin a, .fin b =>
      if b = 0 then (if 0 < a then .pinf else if a < 0 then .ninf else .nan)
      else .fin (a / b)

/-- `np.log`: `log(+inf) = +inf`, `log(0) = -inf`, `log` of a negative
value (or of NaN, or of `-inf`) is NaN. -/
noncomputable def npLog : NpVal → NpVal
  | .nan => .nan
  | .pinf => .pinf
  | .ninf => .nan
  | .fin x => if 0 < x then .fin (Real.log x) else if x = 0 then .ninf else .nan

/-- `np.sqrt`: NaN for negative arguments. -/
noncomputable def npSqrt : NpVal → NpVal
  | .nan => .nan
  | .pinf => .pinf
  | .ninf => .nan
  | .fin x => if x < 0 then .nan else .fin (Real.sqrt x)

/-- `ndarray.sum()`. -/
noncomputable def npSum (l : List NpVal) : NpVal := l.foldl npAdd (.fin 0)

/-- `ndarray.mean() = sum / size` (on an empty array this is `0/0`,
i.e. NaN, matching numpy's warning-then-NaN behaviour). -/
noncomputable def npMean (l : List NpVal) : NpVal :=
  npDiv (npSum l) (.fin (l.length : ℝ))

/-- Pairwise maximum as used by `ndarray.max()`: NaN propagates. -/
noncomputable def npMax2 : NpVal → NpVal → NpVal
  | .nan, _ => .nan
  | _, .nan => .nan
  | .pinf, _ => .pinf
  | _, .pinf => .pinf
  | .ninf, y => y
  | x, .ninf => x
  | .fin a, .fin b => .fin (max a b)

/-- Pairwise minimum as used by `ndarray.min()`: NaN propagates. -/
noncomputable def npMin2 : NpVal → NpVal → NpVal
  | .nan, _ => .nan
  | _, .nan => .nan
  | .ninf, _ => .ninf
  | _, .ninf => .ninf
  | .pinf, y => y
  | x, .pinf => x
  | .fin a, .fin b => .fin (min a b)

/-- `ndarray.max()` (the `[]` case is unreachable in `zonal_stats`: numpy
raises `ValueError` there, which the source catches — see `zonal_stats`). -/
noncomputable def npMax : List NpVal → NpVal
  | [] => .nan
  | h :: t => t.foldl npMax2 h

/-- `ndarray.min()`. -/
noncomputable def npMin : List NpVal → NpVal
  | [] => .nan
  | h :: t => t.foldl npMin2 h

/-- `ndarray.std()`: population standard deviation
`sqrt(mean((x - x.mean())**2))`. -/
noncomputable def npStd (l : List NpVal) : NpVal :=
  npSqrt (npMean (l.map (fun v => npMul (npSub v (npMean l)) (npSub v (npMean l)))))

/-! ## The conversions on numpy arrays -/

/-- One band of a masked raster, rows × cols. -/
abbrev Grid2 : Type := List (List NpVal)

/-- A masked raster as returned by `rasterio.mask.mask`: bands × rows ×
cols (the bands axis has size 1 in this notebook). -/
abbrev Grid3 : Type := List (List (List NpVal))

/-- Elementwise application over a 3-D array (numpy broadcasting of the
arithmetic in `tir_dn2rad` / `tir_rad2tb`). -/
def map3 (f : NpVal → NpVal) (g : Grid3) : Grid3 :=
  g.map (fun p => p.map (fun r => r.map f))

/-- The body of `tir_dn2rad` on one numpy sample:
`(DN - 1.) * ucc[band - 10]` with coefficient `c`. -/
noncomputable def npDn2rad (c : ℝ) (v : NpVal) : NpVal :=
  npMul (npSub v (.fin 1)) (.fin c)

/-- The body of `tir_rad2tb` on one numpy sample:
`k2 / np.log((k1 / rad) + 1)` with constants `a = k1[band - 10]`,
`b = k2[band - 10]`. -/
noncomputable def npRad2tb (a b : ℝ) (v : NpVal) : NpVal :=
  npDiv (.fin b) (npLog (npAdd (npDiv (.fin a) v) (.fin 1)))

/-- `tir_dn2rad` applied to a numpy array, as `zonal_stats` calls it.
`none` models the `IndexError` on a bad band index. -/
noncomputable def tir_dn2rad_np (g : Grid3) (band : ℤ) : Option Grid3 :=
  (pyGet ucc (band - 10)).map (fun c => map3 (npDn2rad c) g)

/-- `tir_rad2tb` applied to a numpy array, as `zonal_stats` calls it. -/
noncomputable def tir_rad2tb_np (g : Grid3) (band : ℤ) : Option Grid3 :=
  match pyGet k1 (band - 10), pyGet k2 (band - 10) with
  | some a, some b => some (map3 (npRad2tb a b) g)
  | _, _ => none

/-! ## `zonal_stats` -/

/-- `masked_aster_band_DN.astype('float64')` followed by
`masked_aster_band_DN[masked_aster_band_DN == 0] = np.nan`, on one pixel:
the sentinel DN 0 becomes NaN. -/
def maskFill (d : ℤ) : NpVal := if d = 0 then .nan else .fin (d : ℝ)

/-- `ndarray.squeeze()` for the single-band array of this notebook:
removes the size-1 bands axis (on any other shape it flattens the bands
axis, a case the source never reaches — its input always has one band). -/
def squeeze : Grid3 → Grid2
  | [p] => p
  | g => g.flatten

/-- The clipped brightness-temperature grid `masked_aster_band_tb` that
`zonal_stats` builds from the masked DN grid: fill DN 0 with NaN, convert
DN → radiance → temperature, squeeze the bands axis.  `none` models the
uncaught `IndexError` from a bad band index. -/
noncomputable def zonalTb (dn : List (List (List ℤ))) (band : ℤ) : Option Grid2 :=
  match tir_dn2rad_np (dn.map (fun p => p.map (fun r => r.map maskFill))) band with
  | none => none
  | some radG =>
    match tir_rad2tb_np radG band with
    | none => none
    | some tbG => some (squeeze tbG)

/-- The statistics population `values`: the temperature grid flattened to
1-D with NaN entries removed (`values = values[~np.isnan(values)]`). -/
noncomputable def zonalValues (dn : List (List (List ℤ))) (band : ℤ) :
    Option (List NpVal) :=
  (zonalTb dn band).map (fun t => t.flatten.filter (fun v => !v.isNan))

/-- The possible returns of `zonal_stats`: `noResult` is the bare
`return` (Python `None`), the other two are the 4- and 5-tuples. -/
inductive ZonalResult : Type where
  | noResult : ZonalResult
  | stats (mean mx mn std : NpVal) : ZonalResult
  | statsMasked (mean mx mn std : NpVal) (arr : Grid2) : ZonalResult

/-- `zonal_stats(aster_filepath, aster_band, shapefile_filepath,
return_masked_array)`, with the raster/geometry I/O abstracted into the
`masked` argument (see the header): `masked = none` is the path where
`rasterio.mask.mask` raises `ValueError` (zone does not overlap the
raster), which the source catches and turns into a bare `return`.
The result is `none` for an uncaught exception (`IndexError` from a bad
band), `some .noResult` for Python `None`, otherwise the tuple.
An empty `values` population makes `values.max()` raise `ValueError`
(numpy: zero-size reduction has no identity), which the second
`try/except` catches and turns into a bare `return`. -/
noncomputable def zonal_stats (masked : Option (List (List (List ℤ))))
    (band : ℤ) (return_masked_array : Bool) : Option ZonalResult :=
  match masked with
  | none => some .noResult
  | some dn =>
    match zonalTb dn band with
    | none => none
    | some tbG =>
      let values := tbG.flatten.filter (fun v => !v.isNan)
      if values.isEmpty then some .noResult
      else if return_masked_array then
        some (.statsMasked (npMean values) (npMax values) (npMin values)
          (npStd values) tbG)
      else
        some (.stats (npMean values) (npMax values) (npMin values)
          (npStd values))

/-! ## `aster_timestamps` -/

/-- Python string slicing `s[a:b]` for `0 ≤ a ≤ b` (out-of-range slices
truncate rather than fail). -/
def pySlice (s : String) (a b : ℕ) : String := ((s.drop a).take (b - a))

/-- The timestamp parsing of one filepath inside `aster_timestamps`:
take the basename (`fpath.split('/')[-1]`), split on underscores, read
month/day/year/hour/minute/second out of fixed offsets of the third
token, and assemble the `pandas.Timestamp` argument
`'YYYY-MM-DD hh:mm:ss'`.  `none` models the `IndexError` when the name
has fewer than three underscore-separated tokens.  (Validation done by
`pandas.Timestamp` itself on nonsense digit strings is not modelled; no
claim depends on it.) -/
def parse_fn_timestamp (fpath : String) : Option String :=
  let fn := (fpath.splitOn "/").getLastD ""
  match (fn.splitOn "_")[2]? with
  | none => none
  | some t =>
    let MM := pySlice t 3 5
    let DD := pySlice t 5 7
    let YYYY := pySlice t 7 11
    let hh := pySlice t 11 13
    let mm := pySlice t 13 15
    let ss := pySlice t 15 17
    some (YYYY ++ "-" ++ MM ++ "-" ++ DD ++ " " ++ hh ++ ":" ++ mm ++ ":" ++ ss)

/-- How `aster_timestamps` can fail: the `assert` on the extension, or an
`IndexError` while parsing a filename. -/
inductive AsterError : Type where
  | assertionError : AsterError
  | indexError : AsterError
deriving DecidableEq, Repr

/-- `aster_timestamps(directory, ext)`, with the directory scan
abstracted into the list of found file paths (`glob` is filesystem I/O;
its results are the input here).  The function first runs
`assert (ext == 'hdf') or (ext == 'tif')`, then parses a timestamp from
every filename and returns the (timestamp, filepath) rows sorted by
timestamp (`sort_values`; the `'YYYY-MM-DD hh:mm:ss'` strings sort
chronologically). -/
def aster_timestamps (files : List String) (ext : String) :
    Except AsterError (List (String × String)) :=
  if (ext = "hdf") ∨ (ext = "tif") then
    match files.mapM (fun f => (parse_fn_timestamp f).map (fun ts => (ts, f))) with
    | none => .error .indexError
    | some rows => .ok (rows.mergeSort (fun x y => decide (x.1 ≤ y.1)))
  else .error .assertionError

/-! ## Spec-side constants

These three functions transcribe the claim's per-band tables (band ↦
coefficient); they are the statement side of the refinement claims C1/C2
and are compared against the source-side list indexing above. -/

/-- Spec-side UCC table: band 10 ↦ 6.822e-3, …, band 14 ↦ 5.225e-3. -/
noncomputable def ucc_spec (b : ℤ) : ℝ :=
  if b = 10 then 6.822e-3 else if b = 11 then 6.780e-3
  else if b = 12 then 6.590e-3 else if b = 13 then 5.693e-3 else 5.225e-3

/-- Spec-side K1 table. -/
noncomputable def k1_spec (b : ℤ) : ℝ :=
  if b = 10 then 3047.47 else if b = 11 then 2480.93
  else if b = 12 then 1930.80 else if b = 13 then 865.65 else 649.60

/-- Spec-side K2 table. -/
noncomputable def k2_spec (b : ℤ) : ℝ :=
  if b = 10 then 1736.18 else if b = 11 then 1666.21
  else if b = 12 then 1584.72 else if b = 13 then 1349.82 else 1274.49

/-! ## Shared lemmas -/

/-- Evaluation of the source-side indexing against the spec-side table:
`tir_dn2rad` on a valid band. -/
lemma tir_dn2rad_eq (DN : ℝ) (band : ℤ) (h1 : 10 ≤ band) (h2 : band ≤ 14) :
    tir_dn2rad DN band = some ((DN - 1) * ucc_spec band) := by
  interval_cases band <;> simp [tir_dn2rad, pyGet, ucc, ucc_spec]

/-- Evaluation of `tir_rad2tb` on a valid band. -/
lemma tir_rad2tb_eq (rad : ℝ) (band : ℤ) (h1 : 10 ≤ band) (h2 : band ≤ 14) :
    tir_rad2tb rad band = some (k2_spec band / Real.log (k1_spec band / rad + 1)) := by
  interval_cases band <;> simp [tir_rad2tb, pyGet, k1, k2, k1_spec, k2_spec]

/-- Both spec-side Planck constants are positive on valid bands. -/
lemma k_spec_pos (band : ℤ) (h1 : 10 ≤ band) (h2 : band ≤ 14) :
    0 < k1_spec band ∧ 0 < k2_spec band := by
  interval_cases band <;> constructor <;> norm_num [k1_spec, k2_spec]

/-- `pyGet` fails exactly when the index is out of range on both ends
(Python `IndexError`). -/
lemma pyGet_eq_none_iff {α : Type} (l : List α) (i : ℤ) :
    pyGet l i = none ↔ (i + l.length < 0 ∨ (l.length : ℤ) ≤ i) := by
  by_cases h : 0 ≤ i
  · simp only [pyGet, if_pos h, List.getElem?_eq_none_iff]
    omega
  · by_cases h2 : 0 ≤ i + l.length
    · simp only [pyGet, if_neg h, if_pos h2, List.getElem?_eq_none_iff]
      omega
    · simp only [pyGet, if_neg h, if_neg h2]
      exact iff_of_true trivial (by omega)

/-! ## Claim theorems -/

/-- Claim C1: for every digital number `DN` (scalar, or a grid `g`) and
band `b ∈ {10,…,14}`, `tir_dn2rad` succeeds and returns
`(DN - 1) * ucc[b]` with the fixed per-band coefficient table — on a grid
as the elementwise map of the same formula (`npDn2rad`) — and in
particular `tir_dn2rad 1 b = 0`.  The function is a pure Lean function of
its arguments. -/
theorem tir_dn2rad_linear (DN : ℝ) (g : Grid3) (band : ℤ)
    (h1 : 10 ≤ band) (h2 : band ≤ 14) :
    tir_dn2rad DN band = some ((DN - 1) * ucc_spec band) ∧
    tir_dn2rad 1 band = some 0 ∧
    tir_dn2rad_np g band = some (map3 (npDn2rad (ucc_spec band)) g) := by
  refine ⟨tir_dn2rad_eq DN band h1 h2, ?_, ?_⟩
  · rw [tir_dn2rad_eq 1 band h1 h2]
    norm_num
  · have hu : pyGet ucc (band - 10) = some (ucc_spec band) := by
      interval_cases band <;> simp [pyGet, ucc, ucc_spec]
    rw [tir_dn2rad_np, hu, Option.map_some']

/-- Witness for C1 at `DN = 2`, grid `[[[.fin 5]]]`, `band = 13`. -/
theorem tir_dn2rad_linear_inst :
    tir_dn2rad 2 13 = some ((2 - 1) * ucc_spec 13) ∧
    tir_dn2rad 1 13 = some 0 ∧
    tir_dn2rad_np [[[.fin 5]]] 13 =
      some (map3 (npDn2rad (ucc_spec 13)) [[[.fin 5]]]) :=
  tir_dn2rad_linear 2 [[[.fin 5]]] 13 (by norm_num) (by norm_num)

/-- Claim C2: for every radiance `rad > 0` and band `b ∈ {10,…,14}`,
`tir_rad2tb rad b` succeeds and returns `K2[b] / ln (K1[b]/rad + 1)` with
the fixed per-band constant tables; the function is pure. -/
theorem tir_rad2tb_planck (rad : ℝ) (band : ℤ) (hr : 0 < rad)
    (h1 : 10 ≤ band) (h2 : band ≤ 14) :
    tir_rad2tb rad band = some (k2_spec band / Real.log (k1_spec band / rad + 1)) :=
  tir_rad2tb_eq rad band h1 h2

/-- Witness for C2 at `rad = 1`, `band = 10`. -/
theorem tir_rad2tb_planck_inst :
    tir_rad2tb 1 10 = some (k2_spec 10 / Real.log (k1_spec 10 / 1 + 1)) :=
  tir_rad2tb_planck 1 10 (by norm_num) (by norm_num) (by norm_num)

/-- Counterexample to C4 as stated: for band 9 (outside `{10,…,14}`) both
conversion functions return a value rather than failing — Python's
negative indexing silently reads `ucc[-1]`, `k1[-1]`, `k2[-1]`. -/
theorem band_nine_no_error :
    tir_dn2rad 2 9 ≠ none ∧ tir_rad2tb 2 9 ≠ none := by
  constructor <;> simp [tir_dn2rad, tir_rad2tb, pyGet, ucc, k1, k2]

/-- Claim C4 (amended): the conversion functions fail (with an
`IndexError`, not a validated `InvalidBand`) exactly for bands `b ≤ 4`
or `b ≥ 15`; for `b ∈ {5,…,9}` they silently return a value computed
from wrap-around (negative) indexing of the 5-entry coefficient tables,
because the source performs no explicit band validation. -/
theorem band_index_error_iff (DN rad : ℝ) (b : ℤ) :
    (tir_dn2rad DN b = none ↔ (b ≤ 4 ∨ 15 ≤ b)) ∧
    (tir_rad2tb rad b = none ↔ (b ≤ 4 ∨ 15 ≤ b)) := by
  constructor
  · rw [tir_dn2rad, Option.map_eq_none', pyGet_eq_none_iff]
    simp only [ucc, List.length_cons, List.length_nil]
    omega
  · by_cases hb : (b ≤ 4 ∨ 15 ≤ b)
    · have e1 : pyGet k1 (b - 10) = none := by
        rw [pyGet_eq_none_iff]
        simp only [k1, List.length_cons, List.length_nil]
        omega
      simp [tir_rad2tb, e1, hb]
    · have e1 : ¬(pyGet k1 (b - 10) = none) := by
        rw [pyGet_eq_none_iff]
        simp only [k1, List.length_cons, List.length_nil]
        omega
      have e2 : ¬(pyGet k2 (b - 10) = none) := by
        rw [pyGet_eq_none_iff]
        simp only [k2, List.length_cons, List.length_nil]
        omega
      obtain ⟨a, ha⟩ := Option.ne_none_iff_exists.mp e1
      obtain ⟨c, hc⟩ := Option.ne_none_iff_exists.mp e2
      simp [tir_rad2tb, ha.symm, hc.symm, hb]

/-- Claim C8: on every valid band, `tir_rad2tb` is strictly increasing in
the radiance on the domain `rad > 0`. -/
theorem tir_rad2tb_strict_mono (band : ℤ) (r1 r2 : ℝ) (hb1 : 10 ≤ band)
    (hb2 : band ≤ 14) (h1 : 0 < r1) (h12 : r1 < r2) :
    ∃ t1 t2, tir_rad2tb r1 band = some t1 ∧ tir_rad2tb r2 band = some t2 ∧
      t1 < t2 := by
  obtain ⟨ha, hb⟩ := k_spec_pos band hb1 hb2
  refine ⟨_, _, tir_rad2tb_eq r1 band hb1 hb2, tir_rad2tb_eq r2 band hb1 hb2, ?_⟩
  have h2 : 0 < r2 := h1.trans h12
  have hq : k1_spec band / r2 < k1_spec band / r1 :=
    div_lt_div_of_pos_left ha h1 h12
  have hp2 : 0 < k1_spec band / r2 := div_pos ha h2
  have hl2 : 0 < Real.log (k1_spec band / r2 + 1) := Real.log_pos (by linarith)
  have hll : Real.log (k1_spec band / r2 + 1) < Real.log (k1_spec band / r1 + 1) :=
    Real.log_lt_log (by linarith) (by linarith)
  exact div_lt_div_of_pos_left hb hl2 hll

/-- Witness for C8 at `band = 10`, `r1 = 1`, `r2 = 2`. -/
theorem tir_rad2tb_strict_mono_inst :
    ∃ t1 t2, tir_rad2tb 1 10 = some t1 ∧ tir_rad2tb 2 10 = some t2 ∧
      t1 < t2 :=
  tir_rad2tb_strict_mono 10 1 2 (by norm_num) (by norm_num) (by norm_num)
    (by norm_num)

/-- Claim C9: `aster_timestamps` hits its `AssertionError` exactly when
the extension is neither `hdf` nor `tif` — for every list of found files
(so the failure precedes any scanning), and for a valid extension the
assertion never fires. -/
theorem aster_timestamps_assertion (files : List String) (ext : String) :
    aster_timestamps files ext = Except.error AsterError.assertionError ↔
      (ext ≠ "hdf" ∧ ext ≠ "tif") := by
  by_cases h : (ext = "hdf") ∨ (ext = "tif")
  · have hne : aster_timestamps files ext ≠ Except.error AsterError.assertionError := by
      unfold aster_timestamps
      rw [if_pos h]
      cases files.mapM (fun f => (parse_fn_timestamp f).map (fun ts => (ts, f))) <;>
        simp
    simp only [hne, false_iff]
    tauto
  · rw [not_or] at h
    unfold aster_timestamps
    rw [if_neg (by tauto)]
    simp [h.1, h.2]

/-! ## The zonal pipeline, characterized -/

/-- The complete per-pixel processing of `zonal_stats` on one DN sample:
fill the 0 sentinel with NaN, then `tir_dn2rad`, then `tir_rad2tb`,
with the band's coefficients `c = ucc[band-10]`, `a = k1[band-10]`,
`b = k2[band-10]`. -/
noncomputable def pixelTb (c a b : ℝ) (d : ℤ) : NpVal :=
  npRad2tb a b (npDn2rad c (maskFill d))

/-- A DN 0 pixel is NaN after the whole conversion chain. -/
lemma pixelTb_zero (c a b : ℝ) : pixelTb c a b 0 = .nan := rfl

/-- On a valid band the three list indexings hit the spec-side tables. -/
lemma pyGet_tables (band : ℤ) (h1 : 10 ≤ band) (h2 : band ≤ 14) :
    pyGet ucc (band - 10) = some (ucc_spec band) ∧
    pyGet k1 (band - 10) = some (k1_spec band) ∧
    pyGet k2 (band - 10) = some (k2_spec band) := by
  interval_cases band <;> refine ⟨?_, ?_, ?_⟩ <;>
    simp [pyGet, ucc, k1, k2, ucc_spec, k1_spec, k2_spec]

/-- `squeeze` does not change the multiset read off by flattening. -/
lemma squeeze_flatten (g : Grid3) : (squeeze g).flatten = g.flatten.flatten := by
  match g with
  | [] => rfl
  | [p] => simp [squeeze]
  | p :: q :: t => rfl

/-- Composing two elementwise passes over a 3-D array is one elementwise
pass of the composition. -/
lemma map_map3 {α β γ : Type} (f : β → γ) (g : α → β) (x : List (List (List α))) :
    (x.map (fun p => p.map (fun r => r.map g))).map
        (fun p => p.map (fun r => r.map f)) =
      x.map (fun p => p.map (fun r => r.map (fun v => f (g v)))) := by
  simp [List.map_map, Function.comp]

/-- On a valid band, the temperature grid of `zonal_stats` is the
elementwise `pixelTb` image of the masked DN grid, squeezed. -/
lemma zonalTb_eq (dn : List (List (List ℤ))) (band : ℤ)
    (h1 : 10 ≤ band) (h2 : band ≤ 14) :
    zonalTb dn band = some (squeeze (dn.map (fun p => p.map (fun r => r.map
      (pixelTb (ucc_spec band) (k1_spec band) (k2_spec band)))))) := by
  obtain ⟨hu, hk1, hk2⟩ := pyGet_tables band h1 h2
  simp only [zonalTb, tir_dn2rad_np, tir_rad2tb_np, hu, hk1, hk2,
    Option.map_some', map3]
  rw [map_map3, map_map3]
  rfl

/-- Filtering out NaN after converting commutes with first dropping the
DN 0 pixels (whose conversion is NaN). -/
lemma filter_map_pixelTb (c a b : ℝ) (l : List ℤ) :
    (l.map (pixelTb c a b)).filter (fun v => !v.isNan) =
      ((l.filter (fun d => !(d == 0))).map (pixelTb c a b)).filter
        (fun v => !v.isNan) := by
  induction l with
  | nil => rfl
  | cons d t ih =>
    by_cases hd : d = 0
    · subst hd
      simpa [pixelTb_zero, NpVal.isNan] using ih
    · have hb : (!(d == 0)) = true := by simpa using hd
      simp only [List.map_cons, List.filter_cons, hd]
      rw [ih, hb]
      simp only [if_true, List.map_cons, List.filter_cons]

/-- The statistics population of `zonal_stats` on a valid band: exactly
the non-NaN conversions of the nonzero DN pixels. -/
lemma zonalValues_eq (dn : List (List (List ℤ))) (band : ℤ)
    (h1 : 10 ≤ band) (h2 : band ≤ 14) :
    zonalValues dn band =
      some (((dn.flatten.flatten.filter (fun d => !(d == 0))).map
        (pixelTb (ucc_spec band) (k1_spec band) (k2_spec band))).filter
        (fun v => !v.isNan)) := by
  rw [zonalValues, zonalTb_eq dn band h1 h2, Option.map_some', squeeze_flatten]
  rw [← List.map_flatten, ← List.map_flatten]
  rw [filter_map_pixelTb]

/-- `zonal_stats` and `zonalValues` compute the same population. -/
lemma zonal_stats_values (dn : List (List (List ℤ))) (band : ℤ)
    (tbG : Grid2) (htb : zonalTb dn band = some tbG) :
    zonalValues dn band = some (tbG.flatten.filter (fun v => !v.isNan)) := by
  rw [zonalValues, htb, Option.map_some']

/-- Claim C5: on every valid band, the flattened statistics population of
`zonal_stats` is built from the nonzero DN pixels only — every DN 0
("no data") pixel is converted to NaN and is absent from the population
over which mean, max, min and std are computed. -/
theorem zonal_stats_excludes_zero_dn (dn : List (List (List ℤ))) (band : ℤ)
    (h1 : 10 ≤ band) (h2 : band ≤ 14) :
    zonalValues dn band =
      some (((dn.flatten.flatten.filter (fun d => !(d == 0))).map
        (pixelTb (ucc_spec band) (k1_spec band) (k2_spec band))).filter
        (fun v => !v.isNan)) :=
  zonalValues_eq dn band h1 h2

/-- Witness for C5 on the grid `[[[0, 3]]]` (contains a DN 0 pixel),
band 11. -/
theorem zonal_stats_excludes_zero_dn_inst :
    zonalValues [[[0, 3]]] 11 =
      some ((((([[[0, 3]]] : List (List (List ℤ))).flatten.flatten.filter
        (fun d => !(d == 0))).map
        (pixelTb (ucc_spec 11) (k1_spec 11) (k2_spec 11))).filter
        (fun v => !v.isNan))) :=
  zonal_stats_excludes_zero_dn [[[0, 3]]] 11 (by norm_num) (by norm_num)

/-- Claim C6: when the zone geometry does not overlap the raster
(`rasterio.mask.mask` raises `ValueError`, modelled by `masked = none`),
`zonal_stats` returns the distinguishable null result (Python `None`) for
every band and flag — it does not propagate an exception. -/
theorem zonal_stats_no_overlap (band : ℤ) (ret : Bool) :
    zonal_stats none band ret = some ZonalResult.noResult := rfl

/-- Claim C7: when masking succeeds but no valid pixel remains (every
pixel of the masked grid carries the 0 "no data" sentinel), `zonal_stats`
on a valid band returns the same null result (Python `None`), not
statistics and not an exception. -/
theorem zonal_stats_empty_zone (dn : List (List (List ℤ))) (band : ℤ)
    (ret : Bool) (h1 : 10 ≤ band) (h2 : band ≤ 14)
    (hz : ∀ d ∈ dn.flatten.flatten, d = 0) :
    zonal_stats (some dn) band ret = some ZonalResult.noResult := by
  have hv := zonalValues_eq dn band h1 h2
  have hfilter : dn.flatten.flatten.filter (fun d => !(d == 0)) = [] := by
    rw [List.filter_eq_nil_iff]
    intro d hd
    simp [hz d hd]
  rw [hfilter] at hv
  obtain ⟨tbG, htb, hflt⟩ := Option.map_eq_some'.mp hv
  simp only [List.map_nil, List.filter_nil] at hflt
  simp [zonal_stats, htb, hflt]

/-- Witness for C7 on the all-zero grid `[[[0]]]`, band 12. -/
theorem zonal_stats_empty_zone_inst :
    zonal_stats (some [[[0]]]) 12 false = some ZonalResult.noResult := by
  apply zonal_stats_empty_zone [[[0]]] 12 false (by norm_num) (by norm_num)
  intro d hd
  simpa using hd

/-- A DN 1 pixel (radiance `(1-1)*ucc = 0`) is not NaN after the
conversion chain: `k1/0` is `+inf`, `log(inf + 1)` is `+inf`, and
`k2/inf` is `0.0` — a finite value. -/
lemma pixelTb_dn_one (c a b : ℝ) (ha : 0 < a) : pixelTb c a b 1 = .fin 0 := by
  norm_num [pixelTb, maskFill, npDn2rad, npRad2tb, npSub, npAdd, npNeg,
    npMul, npDiv, npLog, ha]

/-- Claim C3 fails on the code (code bug relative to the spec's "radiance
≤ 0 is no data" policy): a masked grid whose only pixel has DN 1 — hence
radiance `0 ≤ 0` — produces the statistics population `[0.0]`, not the
empty population, and `zonal_stats` returns mean = max = min = std = 0.0
kelvin instead of the empty-zone null result. -/
theorem dn_one_pixel_included :
    zonalValues [[[1]]] 10 = some [NpVal.fin 0] ∧
    zonal_stats (some [[[1]]]) 10 false =
      some (ZonalResult.stats (NpVal.fin 0) (NpVal.fin 0) (NpVal.fin 0)
        (NpVal.fin 0)) := by
  have hpix : pixelTb (ucc_spec 10) (k1_spec 10) (k2_spec 10) 1 = .fin 0 :=
    pixelTb_dn_one _ _ _ (by norm_num [k1_spec])
  have htb : zonalTb [[[1]]] 10 = some [[NpVal.fin 0]] := by
    rw [zonalTb_eq [[[1]]] 10 (by norm_num) (by norm_num)]
    simp [squeeze, hpix]
  constructor
  · rw [zonal_stats_values [[[1]]] 10 _ htb]
    simp [NpVal.isNan]
  · norm_num [zonal_stats, htb, NpVal.isNan, npMean, npSum, npMax, npMin,
      npStd, npMax2, npMin2, npAdd, npNeg, npSub, npDiv, npMul, npSqrt,
      Real.sqrt_zero]

/-- Claim C10: on a valid band, when at least one valid pixel remains and
`return_masked_array = true`, the fifth component of the result of
`zonal_stats` is the clipped temperature grid with the size-1 band axis
removed (2-D): the elementwise conversion of the masked DN grid, in which
every pixel carrying the 0 "no data" sentinel (outside the polygon mask
or zero DN) still holds a NaN entry even though those entries were
dropped from the statistics population. -/
theorem zonal_stats_masked_retains_nan (p : List (List ℤ)) (band : ℤ)
    (h1 : 10 ≤ band) (h2 : band ≤ 14)
    (hne : ∀ vs, zonalValues [p] band = some vs → vs ≠ []) :
    ∃ m mx mn sd arr,
      zonal_stats (some [p]) band true =
        some (ZonalResult.statsMasked m mx mn sd arr) ∧
      arr = p.map (fun r => r.map
        (pixelTb (ucc_spec band) (k1_spec band) (k2_spec band))) ∧
      ∀ i j : ℕ, (p[i]?.bind (fun r => r[j]?)) = some 0 →
        (arr[i]?.bind (fun r => r[j]?)) = some NpVal.nan := by
  have htb : zonalTb [p] band = some (p.map (fun r => r.map
      (pixelTb (ucc_spec band) (k1_spec band) (k2_spec band)))) := by
    rw [zonalTb_eq [p] band h1 h2]
    simp [squeeze]
  have hval := zonal_stats_values [p] band _ htb
  set F := pixelTb (ucc_spec band) (k1_spec band) (k2_spec band) with hF
  set A := p.map (fun r => r.map F) with hA
  set V := A.flatten.filter (fun v => !v.isNan) with hV
  have hemp : V.isEmpty = false := by
    rw [List.isEmpty_eq_false]
    exact hne _ hval
  refine ⟨npMean V, npMax V, npMin V, npStd V, A, ?_, rfl, ?_⟩
  · simp only [zonal_stats, htb, hemp, Bool.false_eq_true, if_false, if_true,
      ← hV]
  · intro i j hij
    obtain ⟨r, hr, hj⟩ := Option.bind_eq_some.mp hij
    rw [List.getElem?_map, hr, Option.map_some']
    simp only [Option.some_bind]
    rw [List.getElem?_map, hj, Option.map_some', hF, pixelTb_zero]

/-- Witness for C10 on the grid `[[0, 1]]` (one masked-out pixel, one
valid pixel), band 10. -/
theorem zonal_stats_masked_retains_nan_inst :
    ∃ m mx mn sd arr,
      zonal_stats (some [[[0, 1]]]) 10 true =
        some (ZonalResult.statsMasked m mx mn sd arr) ∧
      arr = ([[0, 1]] : List (List ℤ)).map (fun r => r.map
        (pixelTb (ucc_spec 10) (k1_spec 10) (k2_spec 10))) ∧
      ∀ i j : ℕ, ((([[0, 1]] : List (List ℤ))[i]?).bind (fun r => r[j]?)) = some 0 →
        (arr[i]?.bind (fun r => r[j]?)) = some NpVal.nan := by
  refine zonal_stats_masked_retains_nan [[0, 1]] 10 (by norm_num) (by norm_num) ?_
  intro vs hvs
  have hval : zonalValues [[[0, 1]]] 10 = some [NpVal.fin 0] := by
    rw [zonalValues_eq [[[0, 1]]] 10 (by norm_num) (by norm_num)]
    norm_num [pixelTb_dn_one _ _ _ (by norm_num [k1_spec] : (0:ℝ) < k1_spec 10),
      NpVal.isNan]
  rw [hval] at hvs
  simp only [Option.some_inj] at hvs
  subst hvs
  simp

end Aster
